import Mathlib

/-!
Verification development for `cad_logging/logging.py`.

The Python module defines:
  * `CustomRotatingFileHandler` — a rotating file handler whose `doRollover`
    renames the log file to `<baseFilename>.<counter>` with an ever-increasing
    counter (`last_backup_cnt`);
  * `LogServerHandler` — a handler that POSTs each record as JSON to a log
    server, guarded against re-entrant emission by the `_entered` flag;
  * `enable_exception_handler` — installs a `sys.excepthook` that logs
    non-`KeyboardInterrupt` exceptions and then calls `sys.__excepthook__`;
  * `enable_logging` — wires the three handlers onto the root logger.

The embedding below models Python exceptions with `PyErr`, external effects
(formatting, hostname/user lookup, HTTP POST, filesystem) as explicit
environment records, and each operation as a pure function returning its new
state together with the externally visible effects it performed.
-/

/-- A Python exception value (only the data the model needs). -/
inductive PyErr where
  /-- `FileNotFoundError` raised by `open` on a missing path. -/
  | fileNotFound (path : String)
  /-- `ValueError` (e.g. `Handler.setLevel` on an unregistered level name). -/
  | valueError (msg : String)
  /-- any other exception. -/
  | exception (msg : String)
deriving DecidableEq, Repr

/-- The fields of `logging.LogRecord` that `LogServerHandler.emit` reads
directly: `record.levelname` and `record.created`.  The creation timestamp is
an opaque token in the model (it is only carried into the payload, never
computed with). -/
structure LogRecord where
  levelname : String
  created : Int
deriving DecidableEq, Repr

/-- State of a `LogServerHandler` instance: the `_entered` re-entrancy flag,
the `server` base URL and the `source` tag set in `__init__`. -/
structure LogServerHandler where
  _entered : Bool
  server : String
  source : String
deriving DecidableEq, Repr

/-- The fixed configuration-file path read by `LogServerHandler.__init__`
when no `server` argument is given. -/
def loggingServerConfigPath : String :=
  "/operations/app_store/python_diag/logging_server.txt"

/-- Environment seen by `LogServerHandler.__init__`: the first line of the
configuration file (`none` when the file is absent, so `open` raises
`FileNotFoundError`; `f.readline()` on an empty file returns `""`, modelled by
`some ""`), and `sys.argv[0]`. -/
structure InitEnv where
  configFirstLine : Option String
  argv0 : String
deriving DecidableEq, Repr

/-- Python whitespace for `str.strip()` (the ASCII whitespace characters;
the configuration file is ASCII). -/
def isPySpace (c : Char) : Bool :=
  c == ' ' || c == '\t' || c == '\n' || c == '\r' || c == '\x0b' || c == '\x0c'

/-- `str.strip()`: drop leading and trailing whitespace. -/
def pyStrip (s : String) : String :=
  String.mk (((s.data.dropWhile isPySpace).reverse.dropWhile isPySpace).reverse)

/-- `source or sys.argv[0] or "Unknown Python application"`: Python `or`
takes the first truthy (non-empty, non-`None`) string. -/
def sourceOrDefault (source : Option String) (argv0 : String) : String :=
  let s := source.getD ""
  if s ≠ "" then s
  else if argv0 ≠ "" then argv0
  else "Unknown Python application"

/-- `LogServerHandler.__init__(server=None, source=None)`.  Returns the
constructed handler state together with a flag recording whether the
configuration file was opened.  Only `server is None` triggers the file read;
a missing file then raises `FileNotFoundError`, which propagates. -/
def logServerHandlerInit (server source : Option String) (env : InitEnv) :
    Except PyErr (LogServerHandler × Bool) :=
  match server with
  | none =>
    match env.configFirstLine with
    | none => .error (.fileNotFound loggingServerConfigPath)
    | some line =>
      .ok (⟨false, pyStrip line, sourceOrDefault source env.argv0⟩, true)
  | some s => .ok (⟨false, s, sourceOrDefault source env.argv0⟩, false)

/-- One HTTP POST attempt made by `emit`: the target URL and the JSON body
`{host, level, contents, source, user, timestamp}` (exactly these fields, in
the order the dict literal builds them). -/
structure PostRequest where
  url : String
  host : String
  level : String
  contents : String
  source : String
  user : String
  timestamp : Int
deriving DecidableEq, Repr

/-- Split a character list at the first occurrence of `"://"`, returning the
parts before and after it, or `none` when the separator does not occur. -/
def splitSchemeSep : List Char → Option (List Char × List Char)
  | ':' :: '/' :: '/' :: rest => some ([], rest)
  | c :: cs => (splitSchemeSep cs).map (fun p => (c :: p.1, p.2))
  | [] => none

/-- `urllib.parse.urljoin(base, "/api/entries/")`, specialized to the fixed
relative reference `"/api/entries/"` used by `emit`.  Because the reference is
an absolute path, RFC 3986 resolution keeps only the scheme and authority of
`base` and replaces its whole path: for `base = sch ++ "://" ++ netloc ++ p`
the result is `sch ++ "://" ++ netloc ++ "/api/entries/"`; a base with no
`"://"` (hence no authority) resolves to `"/api/entries/"` itself. -/
def urljoinApiEntries (base : String) : String :=
  match splitSchemeSep base.data with
  | none => "/api/entries/"
  | some (sch, rest) =>
    let netloc := rest.takeWhile (fun c => c != '/' && c != '?' && c != '#')
    String.mk sch ++ "://" ++ String.mk netloc ++ "/api/entries/"

/-- Environment of a single `emit` call: `self.format(record)`,
`socket.gethostname()`, `getpass.getuser()` may each raise; `requests.post`
is attempted and its outcome (success or any exception) is irrelevant to the
caller because it runs under `with suppress(Exception)`. -/
structure EmitEnv where
  format : LogRecord → Except PyErr String
  gethostname : Except PyErr String
  getuser : Except PyErr String
  post : PostRequest → Except PyErr Unit

/-- Result of one `emit` call: the handler state on return, the call's own
outcome (`.error e` when an exception propagates to the caller), and the list
of HTTP POST attempts issued during the call. -/
structure EmitResult where
  state : LogServerHandler
  result : Except PyErr Unit
  posts : List PostRequest

/-- `LogServerHandler.emit(record)`:

```
if self._entered: return
self._entered = True
try:
    url = urljoin(self.server, "/api/entries/")
    msg = self.format(record)
    data = {host: gethostname(), level: record.levelname, contents: msg,
            source: self.source, user: getuser(), timestamp: record.created}
    with suppress(Exception):
        requests.post(url, json=data)
finally:
    self._entered = False
```

`format`, `gethostname` and `getuser` run outside the `suppress` block, so
their exceptions propagate (after the `finally` clears `_entered`); the POST
attempt's outcome is discarded. -/
def emit (env : EmitEnv) (self : LogServerHandler) (record : LogRecord) :
    EmitResult :=
  if self._entered then
    ⟨self, .ok (), []⟩
  else
    let self := { self with _entered := true }
    let url := urljoinApiEntries self.server
    match env.format record with
    | .error e => ⟨{ self with _entered := false }, .error e, []⟩
    | .ok msg =>
      match env.gethostname with
      | .error e => ⟨{ self with _entered := false }, .error e, []⟩
      | .ok host =>
        match env.getuser with
        | .error e => ⟨{ self with _entered := false }, .error e, []⟩
        | .ok user =>
          let data : PostRequest :=
            ⟨url, host, record.levelname, msg, self.source, user,
              record.created⟩
          let _ := env.post data
          ⟨{ self with _entered := false }, .ok (), [data]⟩

/-- An emit environment in which every external operation succeeds. -/
def emitEnvOk : EmitEnv :=
  ⟨fun r => .ok ("formatted " ++ r.levelname), .ok "host1", .ok "user1",
    fun _ => .ok ()⟩

/-- An emit environment in which `self.format(record)` raises. -/
def emitEnvBadFormat : EmitEnv :=
  ⟨fun _ => .error (.valueError "format failed"), .ok "host1", .ok "user1",
    fun _ => .ok ()⟩

/-- C1: an `emit` on an instance whose re-entrancy guard `_entered` is set
returns immediately: no HTTP POST attempt is made, no payload is built (the
result does not depend on any environment operation), the call succeeds and
the handler state is returned unchanged. -/
theorem emit_reentrant_is_noop (env : EmitEnv) (self : LogServerHandler)
    (record : LogRecord) (h : self._entered = true) :
    emit env self record = ⟨self, .ok (), []⟩ := by
  simp [emit, h]

/-- Witness for C1 at a concrete guarded state and an environment whose every
operation fails: the call still succeeds with no POST and unchanged state. -/
theorem emit_reentrant_is_noop_witness :
    emit ⟨fun _ => .error (.exception "boom"), .error (.exception "boom"),
        .error (.exception "boom"), fun _ => .error (.exception "boom")⟩
      ⟨true, "http://srv", "prog"⟩ ⟨"ERROR", 3⟩
      = ⟨⟨true, "http://srv", "prog"⟩, .ok (), []⟩ :=
  emit_reentrant_is_noop _ _ _ rfl

/-- C2 counterexample: with a formatter that raises, `emit` propagates the
exception to its caller — the claim that any error from building the payload
is caught and discarded is false (only the POST runs under
`suppress(Exception)`). -/
theorem emit_error_propagates_counterexample :
    (emit emitEnvBadFormat ⟨false, "http://srv", "prog"⟩ ⟨"ERROR", 3⟩).result
      = .error (.valueError "format failed") := rfl

/-- C2 (amended): when building the payload succeeds (formatting, hostname
lookup and user lookup all return), `emit` returns normally whatever the POST
does — every error from issuing the POST (including serialization inside it)
is caught and discarded.  Errors raised while building the payload instead
propagate to the caller (see the counterexample). -/
theorem emit_swallows_post_errors (env : EmitEnv) (self : LogServerHandler)
    (record : LogRecord) (msg host user : String)
    (hf : env.format record = .ok msg)
    (hh : env.gethostname = .ok host)
    (hu : env.getuser = .ok user) :
    (emit env self record).result = .ok () := by
  by_cases h : self._entered <;> simp [emit, h, hf, hh, hu]

/-- Witness for C2's amended theorem: an environment whose POST always raises
still yields a normal return. -/
theorem emit_swallows_post_errors_witness :
    (emit ⟨fun r => .ok ("formatted " ++ r.levelname), .ok "host1",
        .ok "user1", fun _ => .error (.exception "network down")⟩
      ⟨false, "http://srv", "prog"⟩ ⟨"ERROR", 3⟩).result = .ok () :=
  emit_swallows_post_errors _ _ _ "formatted ERROR" "host1" "user1" rfl rfl rfl

/-- C3: a call to `emit` that actually enters the emission path (the guard was
not set when it was invoked) leaves `_entered = false` on return, for every
behaviour of the environment — success, a POST failure, or an exception from
any payload-building step — because the reset sits in the `finally` clause.
A subsequent `emit` on that state is therefore not dropped by the guard. -/
theorem emit_clears_guard (env : EmitEnv) (self : LogServerHandler)
    (record : LogRecord) (h : self._entered = false) :
    (emit env self record).state._entered = false := by
  simp only [emit, h]
  cases env.format record with
  | error e => simp
  | ok msg =>
    cases env.gethostname with
    | error e => simp
    | ok host =>
      cases env.getuser with
      | error e => simp
      | ok user => simp

/-- Witness for C3 at a concrete state and the always-failing formatter
environment: the guard is clear after the call. -/
theorem emit_clears_guard_witness :
    (emit emitEnvBadFormat ⟨false, "http://srv", "prog"⟩
      ⟨"ERROR", 3⟩).state._entered = false :=
  emit_clears_guard _ _ _ rfl

/-- C6 counterexample: for a server URL that has a non-trivial path,
`urljoin(server, "/api/entries/")` replaces the path instead of extending it.
With `server = "http://collector.example/logs"` the one POST issued goes to
`http://collector.example/api/entries/`, which is not the claimed
`server ++ "/api/entries/"`. -/
theorem emit_url_counterexample :
    ((emit emitEnvOk ⟨false, "http://collector.example/logs", "progA"⟩
        ⟨"ERROR", 5⟩).posts.map PostRequest.url
      = ["http://collector.example/api/entries/"]) ∧
    "http://collector.example/api/entries/"
      ≠ "http://collector.example/logs" ++ "/api/entries/" :=
  ⟨rfl, by decide⟩

/-- C6 (amended): a non-guarded `emit` whose payload building succeeds issues
exactly one HTTP POST; its target URL is the RFC 3986 resolution of the
absolute-path reference `/api/entries/` against the server URL (the scheme and
authority of `self.server` with its path replaced by `/api/entries/` — equal
to `self.server ++ "/api/entries/"` only when the server URL carries no path),
and its JSON body has exactly the fields `{host, level, contents, source,
user, timestamp}` with `level` the record's severity name, `contents` the
formatted message and `source` the handler's source tag. -/
theorem emit_posts_once_with_payload (env : EmitEnv)
    (self : LogServerHandler) (record : LogRecord) (msg host user : String)
    (he : self._entered = false)
    (hf : env.format record = .ok msg)
    (hh : env.gethostname = .ok host)
    (hu : env.getuser = .ok user) :
    (emit env self record).posts
      = [⟨urljoinApiEntries self.server, host, record.levelname, msg,
          self.source, user, record.created⟩] := by
  simp [emit, he, hf, hh, hu]

/-- Witness for C6's amended theorem at a concrete handler and record. -/
theorem emit_posts_once_with_payload_witness :
    (emit emitEnvOk ⟨false, "http://collector.example/", "progA"⟩
        ⟨"ERROR", 5⟩).posts
      = [⟨"http://collector.example/api/entries/", "host1", "ERROR",
          "formatted ERROR", "progA", "user1", 5⟩] :=
  emit_posts_once_with_payload _ _ _ "formatted ERROR" "host1" "user1" rfl
    rfl rfl rfl

/-- C7: constructing a `LogServerHandler` with `server` omitted reads the
first line of the fixed configuration file and uses it (stripped) as the base
URL; when that file is absent, construction fails with `FileNotFoundError`
for that path rather than falling back to a disabled sink. -/
theorem init_default_server_from_config (source : Option String)
    (argv0 : String) :
    (logServerHandlerInit none source ⟨none, argv0⟩
        = .error (.fileNotFound loggingServerConfigPath)) ∧
    (∀ line, logServerHandlerInit none source ⟨some line, argv0⟩
        = .ok (⟨false, pyStrip line, sourceOrDefault source argv0⟩, true)) :=
  ⟨rfl, fun _ => rfl⟩

/-- C10: constructing a `LogServerHandler` with an explicit non-empty
`server` argument never opens the configuration file (the read flag is
`false`), stores exactly that URL, and succeeds for every state of the
configuration file. -/
theorem init_explicit_server_no_read (s : String) (h : s ≠ "")
    (source : Option String) (cfg : Option String) (argv0 : String) :
    logServerHandlerInit (some s) source ⟨cfg, argv0⟩
      = .ok (⟨false, s, sourceOrDefault source argv0⟩, false) := rfl

/-- Witness for C10: explicit URL, configuration file absent — construction
still succeeds with that URL and no file read. -/
theorem init_explicit_server_no_read_witness :
    logServerHandlerInit (some "http://collector.example/") none
        ⟨none, "prog"⟩
      = .ok (⟨false, "http://collector.example/",
          sourceOrDefault none "prog"⟩, false) :=
  init_explicit_server_no_read "http://collector.example/" (by decide) none
    none "prog"

/-!
### Decimal rendering

`doRollover` builds the backup name with `"%s.%d" % (self.baseFilename,
self.last_backup_cnt)`, i.e. `baseFilename ++ "." ++ Nat.repr counter`.  To
show that distinct counters give distinct names we prove `Nat.repr`
injective, via a structurally recursive reformulation of `Nat.toDigitsCore`
and a decimal decoder that inverts it.
-/

/-- The decimal digit list of `n`, most significant first; agrees with the
fuel-based `Nat.toDigitsCore 10` from core (shown below). -/
def decChars (n : Nat) : List Char :=
  if n < 10 then [Nat.digitChar n]
  else decChars (n / 10) ++ [Nat.digitChar (n % 10)]
termination_by n
decreasing_by exact Nat.div_lt_self (by omega) (by omega)

theorem toDigitsCore_eq_decChars :
    ∀ (f n : Nat) (ds : List Char), n < f →
      Nat.toDigitsCore 10 f n ds = decChars n ++ ds := by
  intro f
  induction f with
  | zero => omega
  | succ f ih =>
    intro n ds h
    by_cases h10 : n / 10 = 0
    · have hn : n < 10 := by
        rcases Nat.lt_or_ge n 10 with hc | hc
        · exact hc
        · exact absurd h10 (by
            have := Nat.div_le_div_right (c := 10) hc
            simp at this; omega)
      simp [Nat.toDigitsCore, h10, decChars, hn, Nat.mod_eq_of_lt hn]
    · have hn : ¬ n < 10 := fun hc => h10 (Nat.div_eq_of_lt hc)
      have hlt : n / 10 < n := Nat.div_lt_self (by omega) (by omega)
      have : Nat.toDigitsCore 10 (f + 1) n ds
          = Nat.toDigitsCore 10 f (n / 10) (Nat.digitChar (n % 10) :: ds) := by
        simp [Nat.toDigitsCore, h10]
      rw [this, ih (n / 10) _ (by omega)]
      have hd : decChars n = decChars (n / 10) ++ [Nat.digitChar (n % 10)] := by
        rw [decChars]; simp [hn]
      rw [hd]
      simp

theorem repr_eq_decChars (n : Nat) : Nat.repr n = (decChars n).asString := by
  unfold Nat.repr Nat.toDigits
  rw [toDigitsCore_eq_decChars (n + 1) n [] (Nat.lt_succ_self n)]
  simp

/-- Numeric value of a decimal digit character. -/
def digitVal (c : Char) : Nat := c.toNat - 48

theorem digitVal_digitChar : ∀ d, d < 10 → digitVal (Nat.digitChar d) = d := by
  decide

theorem foldl_decChars (n : Nat) :
    ∀ acc, List.foldl (fun acc c => 10 * acc + digitVal c) acc (decChars n)
      = acc * 10 ^ (decChars n).length + n := by
  induction n using Nat.strong_induction_on with
  | _ n ih =>
    intro acc
    by_cases h : n < 10
    · rw [decChars]
      simp [h, digitVal_digitChar n h]
      omega
    · have hd : decChars n = decChars (n / 10) ++ [Nat.digitChar (n % 10)] := by
        rw [decChars]; simp [h]
      have hlt : n / 10 < n := Nat.div_lt_self (by omega) (by omega)
      rw [hd, List.foldl_append, ih (n / 10) hlt acc]
      simp only [List.foldl, List.length_append, List.length_singleton]
      rw [digitVal_digitChar (n % 10) (Nat.mod_lt n (by omega))]
      calc 10 * ((acc * 10 ^ (decChars (n / 10)).length) + n / 10) + n % 10
          = acc * (10 ^ (decChars (n / 10)).length * 10)
              + (10 * (n / 10) + n % 10) := by ring
        _ = acc * 10 ^ ((decChars (n / 10)).length + 1) + n := by
            rw [Nat.div_add_mod, pow_succ]

theorem decChars_injective : Function.Injective decChars := by
  intro a b h
  have ha := foldl_decChars a 0
  have hb := foldl_decChars b 0
  rw [h] at ha
  rw [hb] at ha
  omega

theorem nat_repr_injective : Function.Injective Nat.repr := by
  intro a b h
  rw [repr_eq_decChars, repr_eq_decChars] at h
  exact decChars_injective (congrArg String.data h)

theorem string_append_left_cancel {a b c : String} (h : a ++ b = a ++ c) :
    b = c := by
  have hd : a.data ++ b.data = a.data ++ c.data := congrArg String.data h
  have := List.append_cancel_left hd
  cases b; cases c; simp only at this; simp [this]

/-!
### The rotating file handler
-/

/-- State of a `CustomRotatingFileHandler`: the target file name, the
`last_backup_cnt` counter introduced by the subclass (initialised to 0 in
`__init__`), and the `delay` flag and stream status of the base class. -/
structure CustomRotatingFileHandler where
  baseFilename : String
  last_backup_cnt : Nat
  delay : Bool
  streamOpen : Bool
deriving DecidableEq, Repr

/-- `CustomRotatingFileHandler.doRollover`:

```
if self.stream: self.stream.close(); self.stream = None
self.last_backup_cnt += 1
nextName = "%s.%d" % (self.baseFilename, self.last_backup_cnt)
self.rotate(self.baseFilename, nextName)   # os.replace(source, dest)
if not self.delay: self.stream = self._open()
```

Returns the new state together with the `(source, dest)` pair passed to
`rotate` (the rename performed on disk). -/
def doRollover (self : CustomRotatingFileHandler) :
    CustomRotatingFileHandler × String × String :=
  let self := { self with streamOpen := false }
  let self := { self with last_backup_cnt := self.last_backup_cnt + 1 }
  let nextName := self.baseFilename ++ "." ++ Nat.repr self.last_backup_cnt
  let rename := (self.baseFilename, nextName)
  (if !self.delay then { self with streamOpen := true } else self, rename)

theorem doRollover_eq (s : CustomRotatingFileHandler) :
    doRollover s = (⟨s.baseFilename, s.last_backup_cnt + 1, s.delay,
        !s.delay⟩,
      (s.baseFilename, s.baseFilename ++ "." ++ Nat.repr (s.last_backup_cnt + 1))) := by
  unfold doRollover
  cases h : s.delay <;> simp [h]

/-- `n` consecutive `doRollover` calls; returns the renames they perform (in
order) and the final state. -/
def rolloverRenames :
    Nat → CustomRotatingFileHandler →
      List (String × String) × CustomRotatingFileHandler
  | 0, s => ([], s)
  | n + 1, s =>
    let step := doRollover s
    let rest := rolloverRenames n step.1
    (step.2 :: rest.1, rest.2)

theorem rolloverRenames_spec (N : Nat) :
    ∀ s : CustomRotatingFileHandler,
      (rolloverRenames N s).1 = (List.range N).map
        (fun k => (s.baseFilename,
          s.baseFilename ++ "." ++ Nat.repr (s.last_backup_cnt + k + 1))) ∧
      (rolloverRenames N s).2.last_backup_cnt = s.last_backup_cnt + N := by
  induction N with
  | zero => intro s; simp [rolloverRenames]
  | succ n ih =>
    intro s
    obtain ⟨ih1, ih2⟩ :=
      ih ⟨s.baseFilename, s.last_backup_cnt + 1, s.delay, !s.delay⟩
    constructor
    · simp only [rolloverRenames, doRollover_eq, ih1]
      rw [List.range_succ_eq_map]
      simp only [List.map_cons, List.map_map]
      congr 1
      apply List.map_congr_left
      intro k hk
      have h1k : s.last_backup_cnt + 1 + k + 1
          = s.last_backup_cnt + (k + 1) + 1 := by omega
      simp [h1k]
    · simp only [rolloverRenames, doRollover_eq, ih2]
      omega

/-- C4: starting from a backup counter of 0, `N` consecutive rollovers
increase the counter by exactly 1 each (ending at `N`), produce rename
targets `<base>.1`, …, `<base>.N` in that order, and never reuse a name
produced by an earlier rollover as a later rename target (the target list has
no duplicates). -/
theorem rollover_backup_names (base : String) (delay streamOpen : Bool)
    (N : Nat) :
    (∀ s : CustomRotatingFileHandler,
        (doRollover s).1.last_backup_cnt = s.last_backup_cnt + 1) ∧
    (rolloverRenames N ⟨base, 0, delay, streamOpen⟩).2.last_backup_cnt = N ∧
    (rolloverRenames N ⟨base, 0, delay, streamOpen⟩).1
      = (List.range N).map
          (fun k => (base, base ++ "." ++ Nat.repr (k + 1))) ∧
    ((rolloverRenames N ⟨base, 0, delay, streamOpen⟩).1.map Prod.snd).Nodup := by
  obtain ⟨h1, h2⟩ := rolloverRenames_spec N ⟨base, 0, delay, streamOpen⟩
  simp only at h1 h2
  refine ⟨fun s => by rw [doRollover_eq], by simpa using h2, by simpa using h1, ?_⟩
  rw [h1]
  simp only [List.map_map]
  have hinj : Function.Injective
      (fun k : Nat => base ++ "." ++ Nat.repr (0 + k + 1)) := by
    intro a b hab
    simp only at hab
    have := string_append_left_cancel hab
    have := nat_repr_injective this
    omega
  exact (List.nodup_range N).map (by
    intro a b hab
    exact hinj hab)

/-!
### The Write path of the file sink

`CustomRotatingFileHandler` overrides only `doRollover`; the decision of
*when* to roll over is inherited from the base rotating handler class, whose
code is not part of this repository's sources.
-/

/-- File-size state of the rotating file sink: the current size of `<path>`
in bytes and the configured `maxBytes` threshold. -/
structure FileSinkModel where
  size : Nat
  maxBytes : Nat
deriving DecidableEq, Repr

/-- Modelled from the spec: the `Write(record)` path of the rotating file
sink (the `emit`/`shouldRollover` methods inherited from the base rotating
handler class, absent from `src/`).  Spec §4.1: "Write(record): formats the
record to text, appends a trailing newline, writes to the current stream.
If, after formatting, the resulting file size would exceed `maxBytes` (and
`maxBytes > 0`), performs Rollover before writing."  Returns the new state
and the number of Rollover events this write performed. -/
def writeRecord (st : FileSinkModel) (msgLen : Nat) : FileSinkModel × Nat :=
  let add := msgLen + 1
  if st.maxBytes > 0 && st.size + add > st.maxBytes then
    ({ st with size := add }, 1)
  else
    ({ st with size := st.size + add }, 0)

/-- C5: for a write of a record whose formatted text has `msgLen` bytes
(plus the trailing newline): with `maxBytes = 0` no rollover ever occurs;
with `maxBytes > 0`, no rollover occurs when the resulting size stays at or
below `maxBytes`, and exactly one rollover occurs when it would exceed
`maxBytes`. -/
theorem write_rollover_iff_threshold (st : FileSinkModel) (msgLen : Nat) :
    (st.maxBytes = 0 → (writeRecord st msgLen).2 = 0) ∧
    (0 < st.maxBytes → st.size + msgLen + 1 ≤ st.maxBytes →
      (writeRecord st msgLen).2 = 0) ∧
    (0 < st.maxBytes → st.maxBytes < st.size + msgLen + 1 →
      (writeRecord st msgLen).2 = 1) := by
  refine ⟨fun h => ?_, fun h1 h2 => ?_, fun h1 h2 => ?_⟩ <;>
    simp only [writeRecord] <;> split <;> simp_all <;> omega

/-- Witness for C5: no rollover with `maxBytes = 0`; a write that brings the
file exactly to the threshold does not roll over; one byte more does. -/
theorem write_rollover_iff_threshold_witness :
    (writeRecord ⟨0, 0⟩ 4).2 = 0 ∧ (writeRecord ⟨5, 10⟩ 4).2 = 0 ∧
      (writeRecord ⟨6, 10⟩ 4).2 = 1 :=
  ⟨(write_rollover_iff_threshold ⟨0, 0⟩ 4).1 rfl,
   (write_rollover_iff_threshold ⟨5, 10⟩ 4).2.1 (by decide) (by decide),
   (write_rollover_iff_threshold ⟨6, 10⟩ 4).2.2 (by decide) (by decide)⟩

/-!
### The uncaught-exception hook
-/

/-- Observable actions of the hook installed by `enable_exception_handler`. -/
inductive ExcAction where
  /-- `exit(0)` on `KeyboardInterrupt`. -/
  | exitZero
  /-- `logging.exception("Uncaught exception", exc_info=value)`: the record
  goes through the configured root handlers. -/
  | logUncaughtException
  /-- `sys.__excepthook__(exctype, value, tb)`: the platform default
  terminal handler. -/
  | callDefaultHook
deriving DecidableEq, Repr

/-- The `logging_handler` closure installed as `sys.excepthook`; exception
types are modelled by their names.  `if exctype is KeyboardInterrupt:
exit(0)`, otherwise log then call `sys.__excepthook__`. -/
def logging_handler (exctype : String) : List ExcAction :=
  if exctype = "KeyboardInterrupt" then [.exitZero]
  else [.logUncaughtException, .callDefaultHook]

/-- The process-wide interpreter state the module mutates:
`sys.excepthook`. -/
structure SysState where
  excepthook : String → List ExcAction

/-- `enable_exception_handler()`: replaces `sys.excepthook` with
`logging_handler`. -/
def enable_exception_handler (sys : SysState) : SysState :=
  { sys with excepthook := logging_handler }

/-- C8: after `enable_exception_handler` installs the hook, an uncaught
exception of any type other than `KeyboardInterrupt` is first logged through
the configured sinks and then forwarded to the platform's default exception
handler, in that order. -/
theorem excepthook_logs_then_forwards (sys : SysState) (exctype : String)
    (h : exctype ≠ "KeyboardInterrupt") :
    (enable_exception_handler sys).excepthook exctype
      = [.logUncaughtException, .callDefaultHook] := by
  simp [enable_exception_handler, logging_handler, h]

/-- Witness for C8 at `ValueError`. -/
theorem excepthook_logs_then_forwards_witness :
    (enable_exception_handler ⟨fun _ => []⟩).excepthook "ValueError"
      = [.logUncaughtException, .callDefaultHook] :=
  excepthook_logs_then_forwards ⟨fun _ => []⟩ "ValueError" (by decide)

/-!
### `enable_logging`

Structural (kernel-reducible) models of the path-string helpers the function
uses, then the function itself.
-/

/-- `str.split("/")` on character lists (also the backbone of
`os.path.basename` and of `pathlib` parts as used here). -/
def splitSlash : List Char → List (List Char)
  | [] => [[]]
  | '/' :: cs => [] :: splitSlash cs
  | c :: cs =>
    match splitSlash cs with
    | [] => [[c]]
    | p :: ps => (c :: p) :: ps

/-- `os.path.basename(p)`: the part after the last `/`. -/
def basenameOf (p : String) : String :=
  String.mk (((splitSlash p.data).getLast?).getD [])

/-- The `script_name` computation: `os.path.basename(sys.argv[0])`, and when
that is `"__main__.py"`, `pathlib.Path(sys.argv[0]).parts[-2]` (the enclosing
directory name, modelled by slash-splitting; `IndexError` when there is no
enclosing part). -/
def scriptNameOf (argv0 : String) : Except PyErr String :=
  let sn := basenameOf argv0
  if sn = "__main__.py" then
    match ((splitSlash argv0.data).dropLast).getLast? with
    | some parent => .ok (String.mk parent)
    | none => .error (.exception "IndexError")
  else .ok sn

/-- `hostname.replace(".pbn.bnl.gov", "")`: removes every (non-overlapping,
leftmost-first) occurrence of the domain suffix. -/
def stripPbnSuffix : List Char → List Char
  | '.' :: 'p' :: 'b' :: 'n' :: '.' :: 'b' :: 'n' :: 'l' :: '.' :: 'g' :: 'o'
      :: 'v' :: rest => stripPbnSuffix rest
  | c :: cs => c :: stripPbnSuffix cs
  | [] => []

/-- The characters of `p` up to and including the last `/` (`p[:i]` with
`i = p.rfind('/') + 1`); empty when `p` has no slash. -/
def headToLastSlash : List Char → List Char
  | [] => []
  | c :: cs =>
    if cs.contains '/' then c :: headToLastSlash cs
    else if c = '/' then [c] else []

/-- `os.path.dirname(p)` (posix): the head up to the last `/`, with trailing
slashes stripped unless the head consists only of slashes. -/
def dirnameOf (p : String) : String :=
  let head := headToLastSlash p.data
  if head.all (fun c => c == '/') then String.mk head
  else String.mk ((head.reverse.dropWhile (fun c => c == '/')).reverse)

/-- `os.path.join(a, b)` (posix, two arguments). -/
def osPathJoin (a b : String) : String :=
  if b.data.head? = some '/' then b
  else if a = "" || a.data.getLast? = some '/' then a ++ b
  else a ++ "/" ++ b

/-- `logging.getLevelName(name)` restricted to string arguments followed by
`Handler.setLevel`: registered names map to their numeric level; any other
string gives `"Level <name>"`, which `setLevel` rejects (`none` here). -/
def getLevelNameStr (name : String) : Option Nat :=
  if name = "CRITICAL" then some 50
  else if name = "FATAL" then some 50
  else if name = "ERROR" then some 40
  else if name = "WARN" then some 30
  else if name = "WARNING" then some 30
  else if name = "INFO" then some 20
  else if name = "DEBUG" then some 10
  else if name = "NOTSET" then some 0
  else none

/-- A handler attached to the root logger by `enable_logging`. -/
inductive HandlerKind where
  | rotatingFile (path : String) (maxBytes : Nat)
  | logServer (server : String) (src : String)
  | console
deriving DecidableEq, Repr

/-- A configured handler: its kind and the level set with `setLevel`. -/
structure HandlerSpec where
  kind : HandlerKind
  level : Nat
deriving DecidableEq, Repr

/-- The root logger: its threshold level and handler list. -/
structure RootLogger where
  level : Nat
  handlers : List HandlerSpec
deriving DecidableEq, Repr

/-- Environment read by `enable_logging`: `sys.argv[0]`,
`socket.gethostname()`, `os.getpid()`, the `datetime.now().strftime` string,
the `LOGLEVEL` environment variable, the first line of the logging-server
configuration file, and the filesystem operations `os.makedirs` and the file
handler's eager open (each may raise). -/
structure LoggingEnv where
  argv0 : String
  hostname : String
  pid : Nat
  nowStr : String
  loglevelVar : Option String
  configFirstLine : Option String
  makedirs : String → Except PyErr Unit
  openLogFile : String → Except PyErr Unit

/-- Result of a successful `enable_logging` call: the root logger it
configured and whether it installed the exception hook. -/
structure EnableLoggingResult where
  root : RootLogger
  excepthookInstalled : Bool
deriving DecidableEq, Repr

/-- `enable_logging(enable_fs=True, fs_path=None, fs_level=INFO,
enable_db=True, db_level=INFO, console_level=None)` over the given
environment and initial root logger.  Numeric levels: DEBUG = 10, INFO = 20,
WARNING = 30.  `maxBytes=1e6` is the integer 1000000.  Order follows the
source: filesystem handler (derived path via the hostname with the
`.pbn.bnl.gov` suffix removed, `os.makedirs` on the dirname, eager open),
database handler (`LogServerHandler()`), console level resolution (raises on
an unregistered `LOGLEVEL` name), `logging.root.setLevel(logging.DEBUG)`,
console handler, `enable_exception_handler()`. -/
def enable_logging (enable_fs : Bool) (fs_path : Option String)
    (fs_level : Nat) (enable_db : Bool) (db_level : Nat)
    (console_level : Option Nat) (env : LoggingEnv) (root : RootLogger) :
    Except PyErr EnableLoggingResult :=
  match scriptNameOf env.argv0 with
  | .error e => .error e
  | .ok script_name =>
    match (if enable_fs then
        let p0 := fs_path.getD ""
        let fsPathResolved :=
          if p0 = "" then
            let hostname := String.mk (stripPbnSuffix env.hostname.data)
            let logging_dir :=
              "/operations/app_store/" ++ script_name ++ "/diagnostics/message"
            let logging_file :=
              env.nowStr ++ "_" ++ hostname ++ ":" ++ Nat.repr env.pid
                ++ ".log"
            osPathJoin logging_dir logging_file
          else p0
        match env.makedirs (dirnameOf fsPathResolved) with
        | .error e => .error e
        | .ok () =>
          match env.openLogFile fsPathResolved with
          | .error e => .error e
          | .ok () =>
            .ok { root with handlers := root.handlers
                ++ [⟨.rotatingFile fsPathResolved 1000000, fs_level⟩] }
      else .ok root : Except PyErr RootLogger) with
    | .error e => .error e
    | .ok root =>
      match (if enable_db then
          match logServerHandlerInit none none
              ⟨env.configFirstLine, env.argv0⟩ with
          | .error e => .error e
          | .ok (h, _) =>
            .ok { root with handlers := root.handlers
                ++ [⟨.logServer h.server h.source, db_level⟩] }
        else .ok root : Except PyErr RootLogger) with
      | .error e => .error e
      | .ok root =>
        match (match console_level with
          | some l => .ok l
          | none =>
            match getLevelNameStr ((env.loglevelVar).getD "WARNING") with
            | some l => .ok l
            | none =>
              .error (.valueError "Unknown level") : Except PyErr Nat) with
        | .error e => .error e
        | .ok consoleLevel =>
          let root : RootLogger := { root with level := 10 }
          let root : RootLogger :=
            { root with handlers :=
                root.handlers ++ [⟨.console, consoleLevel⟩] }
          .ok ⟨root, true⟩

/-- C9: every `enable_logging` call that completes — for all argument values
and every environment — leaves the root logger's threshold level at
DEBUG (10): per-handler levels alone filter records. -/
theorem enable_logging_root_level_debug (enable_fs : Bool)
    (fs_path : Option String) (fs_level : Nat) (enable_db : Bool)
    (db_level : Nat) (console_level : Option Nat) (env : LoggingEnv)
    (root : RootLogger) (res : EnableLoggingResult)
    (h : enable_logging enable_fs fs_path fs_level enable_db db_level
        console_level env root = .ok res) :
    res.root.level = 10 := by
  unfold enable_logging at h
  repeat' split at h
  all_goals first
    | (injection h with h; subst h; rfl)
    | (simp only [Except.ok.injEq] at h; subst h; rfl)
    | exact absurd h (by simp)

/-- A concrete benign environment for the C9 witness. -/
def demoLoggingEnv : LoggingEnv :=
  ⟨"/opt/prog.py", "host.pbn.bnl.gov", 42, "2026-0101_00:00:00", none,
    some "http://srv", fun _ => .ok (), fun _ => .ok ()⟩

/-- Witness for C9: a concrete call (no filesystem sink, database sink on,
`LOGLEVEL` unset) completes and its root level is 10. -/
theorem enable_logging_root_level_debug_witness :
    (⟨⟨10, [⟨.logServer "http://srv" "/opt/prog.py", 20⟩, ⟨.console, 30⟩]⟩,
        true⟩ : EnableLoggingResult).root.level = 10 :=
  enable_logging_root_level_debug false none 20 true 20 none demoLoggingEnv
    ⟨30, []⟩ _ rfl
